import Mathlib

/-!
Shallow embedding of `src/readwritebin.h` (class `Bin`, proxy class `TypeBin`,
iterator class `BinPtr`).

Modelling conventions:

* A typed value of element type `T` is represented by its host-native byte
  representation, a `List Nat` of length `sizeof(T)`.  An element type `T` is
  therefore abstracted to the pair of its size `sz : Nat` and the flag
  `isFloat : Bool` (the value of `std::is_floating_point<T>::value`).
* `class Bin` wraps a `std::fstream`.  A `basic_filebuf` maintains a single
  joint file position used by both reads and writes (`seekg`/`seekp` and
  `tellg`/`tellp` all act on the same pointer; the source itself remarks at
  `rpos` that it "seems to be identical to the write version").  The state
  therefore carries one position `pos`.
* Each member function is embedded as a state-passing function
  `... → Bin → Except Err α × Bin`: the `Except` carries the thrown
  exception, classified by the error kinds of the design (ClosedResource,
  OutOfBounds, UnboundReference, InvalidComparison), and the second component
  is the state of the object after the call (exceptions in the source are
  thrown before any mutation of the site that throws).
* Failed stream seeks (`seekg`/`seekp` to a negative position, or any seek on
  a closed stream) set `failbit` and leave the position unchanged; they do not
  throw.  They are modelled as returning `.ok` with the state unchanged.
* The heap of `Bin` objects reachable through `shared_ptr`/`weak_ptr` is a
  `List (Option Bin)`; index `i` plays the role of the object identity, and
  `none` marks a destroyed object (`weak_ptr::lock` returning null).
-/

namespace ReadWriteBin

/-- Error kinds of the design, one per family of throw sites in the source:
`closedResource` for every `"... closed file!"` / `"The file was closed!"`
throw, `outOfBounds` for `"Can't jump and read past EOF!"`,
`"Trying to read past EOF!"` and `"decrement past begin of Bin"`,
`unboundReference` for `"Unbound Bin"`, and `invalidComparison` for
`"comparing invalid BinPtr(s)"`. -/
inductive Err where
  | closedResource
  | outOfBounds
  | unboundReference
  | invalidComparison
  deriving DecidableEq, Repr

/-- State of a `Bin` object (src/readwritebin.h:28-619).
`closed` is the member `closed`; `pos` is the joint file position of the
underlying `std::fstream`; `data` is the byte content of the file;
`opposite_endian` is the member `opposite_endian`. -/
structure Bin where
  closed : Bool
  pos : Nat
  data : List Nat
  opposite_endian : Bool
  deriving DecidableEq, Repr

/-- The byte-level effect of `fs.write(buf, n)` at position `p`: bytes
`[p, p + buf.length)` are replaced, the file grows as needed, and a hole
created by writing past the current end reads back as zero bytes. -/
def storeBytes (data : List Nat) (p : Nat) (buf : List Nat) : List Nat :=
  data.take p ++ List.replicate (p - data.length) 0 ++ buf ++ data.drop (p + buf.length)

/-- Encoding step of `Bin::write` (src/readwritebin.h:190-196): the host bytes
of the value are reversed when `opposite_endian` holds.  Note that `write`
applies the reversal to every element type; it contains no
`is_floating_point` test. -/
def encodeBytes (opp : Bool) (v : List Nat) : List Nat :=
  if opp then v.reverse else v

/-- Decoding step of `Bin::get_value` (src/readwritebin.h:480-485): the bytes
read are reversed when `opposite_endian` holds, except for floating-point
element types. -/
def decodeBytes (opp : Bool) (isFloat : Bool) (buf : List Nat) : List Nat :=
  if opp && !isFloat then buf.reverse else buf

/-- `Bin::rjump_to` (src/readwritebin.h:110-116): throws on a closed file,
throws when the target is past the current size, otherwise `fs.seekg(point)`
(a seek to a negative position fails silently, leaving the position
unchanged). -/
def Bin.rjump_to (point : Int) (s : Bin) : Except Err Unit × Bin :=
  if s.closed then (.error .closedResource, s)
  else if point > (s.data.length : Int) then (.error .outOfBounds, s)
  else if point < 0 then (.ok (), s)
  else (.ok (), { s with pos := point.toNat })

/-- `Bin::wjump_to` (src/readwritebin.h:125-129): throws on a closed file,
otherwise `fs.seekp(point)` with no upper bound (a seek to a negative
position fails silently). -/
def Bin.wjump_to (point : Int) (s : Bin) : Except Err Unit × Bin :=
  if s.closed then (.error .closedResource, s)
  else if point < 0 then (.ok (), s)
  else (.ok (), { s with pos := point.toNat })

/-- `Bin::size` (src/readwritebin.h:137-145): throws on a closed file,
otherwise reports the file length via a `tellp`/`seekp`-to-end/`seekp`-back
sequence that restores the joint position, so the state is unchanged. -/
def Bin.size (s : Bin) : Except Err Nat × Bin :=
  if s.closed then (.error .closedResource, s)
  else (.ok s.data.length, s)

/-- `Bin::wpos` (src/readwritebin.h:151): `return fs.tellp();` with no closed
check; on a closed stream `tellp` reports `-1`. -/
def Bin.wpos (s : Bin) : Except Err Int × Bin :=
  (.ok (if s.closed then -1 else (s.pos : Int)), s)

/-- `Bin::rpos` (src/readwritebin.h:157): `return fs.tellg();` with no closed
check; `tellg` and `tellp` report the same joint position. -/
def Bin.rpos (s : Bin) : Except Err Int × Bin :=
  (.ok (if s.closed then -1 else (s.pos : Int)), s)

/-- `Bin::wmove_by<T>` (src/readwritebin.h:165-166):
`fs.seekp(sizeof(T) * n_steps, cur)` with no closed check; the seek fails
silently on a closed stream or when the target is negative. -/
def Bin.wmove_by (sz : Nat) (n : Int) (s : Bin) : Except Err Unit × Bin :=
  if s.closed then (.ok (), s)
  else if (s.pos : Int) + (sz : Int) * n < 0 then (.ok (), s)
  else (.ok (), { s with pos := ((s.pos : Int) + (sz : Int) * n).toNat })

/-- `Bin::rmove_by<T>` (src/readwritebin.h:174-175):
`fs.seekg(sizeof(T) * n_steps, cur)`, same behaviour as `wmove_by` on the
joint position. -/
def Bin.rmove_by (sz : Nat) (n : Int) (s : Bin) : Except Err Unit × Bin :=
  if s.closed then (.ok (), s)
  else if (s.pos : Int) + (sz : Int) * n < 0 then (.ok (), s)
  else (.ok (), { s with pos := ((s.pos : Int) + (sz : Int) * n).toNat })

/-- `Bin::write<T>(T val)` (src/readwritebin.h:190-196): throws on a closed
file; otherwise reverses the value's bytes when `opposite_endian` holds
(for every `T`, floating point included) and writes them at the current
position, advancing it by `sizeof(T)`. -/
def Bin.write (v : List Nat) (s : Bin) : Except Err Unit × Bin :=
  if s.closed then (.error .closedResource, s)
  else
    (.ok (), { s with
      data := storeBytes s.data s.pos (encodeBytes s.opposite_endian v),
      pos := s.pos + (encodeBytes s.opposite_endian v).length })

/-- `Bin::write<T>(T val, size_type p)` (src/readwritebin.h:315-318):
`wjump_to(p)` then `write(val)`. -/
def Bin.write_at (v : List Nat) (p : Int) (s : Bin) : Except Err Unit × Bin :=
  match Bin.wjump_to p s with
  | (.error e, s1) => (.error e, s1)
  | (.ok _, s1) => Bin.write v s1

/-- `Bin::get_value<T>()` (src/readwritebin.h:474-486): throws on a closed
file; throws `"Trying to read past EOF!"` when
`static_cast<size_t>(size() - rpos()) < sizeof(T)` — for the attainable
range of `streamsize` differences this unsigned comparison holds exactly
when the difference is non-negative and smaller than `sizeof(T)` (a negative
difference wraps to at least `2^63`, far above any `sizeof`); otherwise reads
`sizeof(T)` bytes, applies the conditional reversal (skipped for
floating-point `T`), and advances the position. -/
def Bin.get_value (sz : Nat) (isFloat : Bool) (s : Bin) : Except Err (List Nat) × Bin :=
  if s.closed then (.error .closedResource, s)
  else if 0 ≤ (s.data.length : Int) - (s.pos : Int) ∧
          (s.data.length : Int) - (s.pos : Int) < (sz : Int) then
    (.error .outOfBounds, s)
  else
    (.ok (decodeBytes s.opposite_endian isFloat ((s.data.drop s.pos).take sz)),
     { s with pos := s.pos + sz })

/-- `Bin::get_value<T>(size_type p)` (src/readwritebin.h:519-522):
`rjump_to(p)` then `get_value<T>()`. -/
def Bin.get_value_at (sz : Nat) (isFloat : Bool) (p : Int) (s : Bin) :
    Except Err (List Nat) × Bin :=
  match Bin.rjump_to p s with
  | (.error e, s1) => (.error e, s1)
  | (.ok _, s1) => Bin.get_value sz isFloat s1

/-- `Bin::flush` (src/readwritebin.h:567): `fs.flush();` with no closed check
(flushing a closed stream sets `failbit` and returns normally). -/
def Bin.flush (s : Bin) : Except Err Unit × Bin :=
  (.ok (), s)

/-- `Bin::close` (src/readwritebin.h:570-573): `fs.close();` then
`closed = true;`. -/
def Bin.close (s : Bin) : Except Err Unit × Bin :=
  (.ok (), { s with closed := true })

/-- The heap of `Bin` objects reachable through `shared_ptr`s: index =
object identity, `none` = object destroyed. -/
abbrev Heap := List (Option Bin)

/-- `weak_ptr<Bin>::lock()` for the weak pointer observing the object at
index `sid`: `none` when the object is gone. -/
def resolveBin (h : Heap) (sid : Nat) : Option Bin :=
  h.getD sid none

/-- Mutating the `Bin` object at index `sid` through a locked pointer. -/
def Heap.setStore (h : Heap) (sid : Nat) (b : Bin) : Heap :=
  h.set sid (some b)

/-- State of the iterator class `BinPtr<T>` (src/readwritebin.h:696-841):
`wptr` is the weak pointer (as the identity of the observed `Bin`), `curr`
the current byte offset. -/
structure BinPtr where
  wptr : Nat
  curr : Int
  deriving DecidableEq, Repr

/-- State of the proxy class `TypeBin<T>` (src/readwritebin.h:639-671):
`tmp_b` is the reference to the `Bin` instance (as its identity), `curr`
the bound byte offset. -/
structure TypeBin where
  tmp_b : Nat
  curr : Int
  deriving DecidableEq, Repr

/-- `BinPtr::check` (src/readwritebin.h:831-840): locks the weak pointer
(throws `"Unbound Bin"` on failure), throws `"The file was closed!"` when the
store is closed, throws `out_of_range` when `i > size()`, else returns the
locked pointer. -/
def BinPtr.check (h : Heap) (sid : Nat) (i : Int) : Except Err Bin :=
  match resolveBin h sid with
  | none => .error .unboundReference
  | some b =>
    if b.closed then .error .closedResource
    else if i > (b.data.length : Int) then .error .outOfBounds
    else .ok b

/-- `BinPtr::operator++` (prefix, src/readwritebin.h:734-738): `check(0, "")`
then `curr += sizeof(T)`. -/
def BinPtr.inc (h : Heap) (sz : Nat) (p : BinPtr) : Except Err BinPtr :=
  match BinPtr.check h p.wptr 0 with
  | .error e => .error e
  | .ok _ => .ok { p with curr := p.curr + (sz : Int) }

/-- `BinPtr::operator--` (prefix, src/readwritebin.h:744-749): no `check`
call; throws `out_of_range("decrement past begin of Bin")` when
`curr < sizeof(T)`, else `curr -= sizeof(T)`. -/
def BinPtr.dec (sz : Nat) (p : BinPtr) : Except Err BinPtr :=
  if p.curr < (sz : Int) then .error .outOfBounds
  else .ok { p with curr := p.curr - (sz : Int) }

/-- `BinPtr::operator*` (src/readwritebin.h:720-725): `check(0, "")`, then
`p->wjump_to(curr)` on the locked store, then returns the proxy bound to
`curr`. -/
def BinPtr.deref (h : Heap) (p : BinPtr) : Except Err TypeBin × Heap :=
  match BinPtr.check h p.wptr 0 with
  | .error e => (.error e, h)
  | .ok b => (.ok ⟨p.wptr, p.curr⟩, Heap.setStore h p.wptr (Bin.wjump_to p.curr b).2)

/-- `BinPtr::operator+(size_type n)` (src/readwritebin.h:776-779):
`check(0, "")` then a new iterator at `curr + sizeof(T) * n`, observing the
same store. -/
def BinPtr.add (h : Heap) (sz : Nat) (p : BinPtr) (n : Int) : Except Err BinPtr :=
  match BinPtr.check h p.wptr 0 with
  | .error e => .error e
  | .ok _ => .ok { p with curr := p.curr + (sz : Int) * n }

/-- `BinPtr::operator-(size_type n)` (src/readwritebin.h:786-789):
`check(0, "")` then a new iterator at `curr - sizeof(T) * n`, observing the
same store; no lower-bound check is performed. -/
def BinPtr.sub (h : Heap) (sz : Nat) (p : BinPtr) (n : Int) : Except Err BinPtr :=
  match BinPtr.check h p.wptr 0 with
  | .error e => .error e
  | .ok _ => .ok { p with curr := p.curr - (sz : Int) * n }

/-- `BinPtr::operator==` (src/readwritebin.h:797-804): locks both weak
pointers, throws `"comparing invalid BinPtr(s)"` if either lock fails (the
`closed` flag is not consulted), else compares offsets and store identity
(`addressof(b1->fs) == addressof(b2->fs)`). -/
def BinPtr.eq (h : Heap) (a b : BinPtr) : Except Err Bool :=
  match resolveBin h a.wptr, resolveBin h b.wptr with
  | some _, some _ => .ok (decide (a.curr = b.curr) && decide (a.wptr = b.wptr))
  | _, _ => .error .invalidComparison

/-! ## Helper lemmas -/

lemma storeBytes_eq_append (data buf : List Nat) (p : Nat) :
    storeBytes data p buf
      = (data.take p ++ List.replicate (p - data.length) 0)
        ++ (buf ++ data.drop (p + buf.length)) := by
  simp [storeBytes, List.append_assoc]

lemma storeBytes_prefix_length (data : List Nat) (p : Nat) :
    (data.take p ++ List.replicate (p - data.length) 0).length = p := by
  simp [List.length_take]
  omega

lemma storeBytes_read (data buf : List Nat) (p : Nat) :
    ((storeBytes data p buf).drop p).take buf.length = buf := by
  rw [storeBytes_eq_append, List.drop_left' (storeBytes_prefix_length data p),
    List.take_left]

lemma storeBytes_length (data buf : List Nat) (p : Nat) :
    (storeBytes data p buf).length = max data.length (p + buf.length) := by
  simp [storeBytes]
  omega

lemma encodeBytes_length (opp : Bool) (v : List Nat) :
    (encodeBytes opp v).length = v.length := by
  cases opp <;> simp [encodeBytes]

lemma decodeBytes_encodeBytes (opp : Bool) (v : List Nat) :
    decodeBytes opp false (encodeBytes opp v) = v := by
  cases opp <;> simp [decodeBytes, encodeBytes]

lemma natCast_not_lt_zero (p : Nat) : ¬ ((p : Int) < 0) := by omega

/-- Full case analysis of `get_value<T>(size_type p)` at a non-negative
offset: closed-file failure (state untouched), seek-bounds failure at
`p > size` (state untouched), typed-read failure at `size < p + sizeof(T)`
(the position already moved to `p` by the successful seek), and success. -/
lemma get_value_at_eq (s : Bin) (sz : Nat) (f : Bool) (p : Nat) :
    Bin.get_value_at sz f (p : Int) s =
      if s.closed then (Except.error Err.closedResource, s)
      else if s.data.length < p then (Except.error Err.outOfBounds, s)
      else if s.data.length < p + sz then
        (Except.error Err.outOfBounds, { s with pos := p })
      else
        (Except.ok (decodeBytes s.opposite_endian f ((s.data.drop p).take sz)),
         { s with pos := p + sz }) := by
  unfold Bin.get_value_at Bin.rjump_to Bin.get_value
  by_cases hc : s.closed
  · simp [hc]
  · by_cases hp : s.data.length < p
    · have h1 : (p : Int) > (s.data.length : Int) := by omega
      simp [hc, h1, hp]
    · have h1 : ¬ ((p : Int) > (s.data.length : Int)) := by omega
      by_cases h2 : s.data.length < p + sz
      · have h3 : 0 ≤ (s.data.length : Int) - (p : Int) ∧
            (s.data.length : Int) - (p : Int) < (sz : Int) := by omega
        simp [hc, h1, hp, h2, natCast_not_lt_zero, h3]
      · have h3 : ¬ (0 ≤ (s.data.length : Int) - (p : Int) ∧
            (s.data.length : Int) - (p : Int) < (sz : Int)) := by omega
        have h3' : ¬ (p ≤ s.data.length ∧
            (s.data.length : Int) - (p : Int) < (sz : Int)) := by omega
        simp [hc, h1, hp, h2, natCast_not_lt_zero, h3, h3']

lemma resolveBin_lt (h : Heap) (sid : Nat) (b : Bin)
    (hr : resolveBin h sid = some b) : sid < h.length := by
  by_contra hn
  push_neg at hn
  rw [resolveBin, List.getD_eq_default _ _ hn] at hr
  exact Option.noConfusion hr

lemma resolveBin_setStore : ∀ (h : Heap) (sid : Nat) (b : Bin),
    sid < h.length → resolveBin (Heap.setStore h sid b) sid = some b := by
  intro h
  induction h with
  | nil => intro sid b hs; simp at hs
  | cons a t ih =>
    intro sid b hs
    cases sid with
    | zero => rfl
    | succ n =>
      simp only [Heap.setStore, List.set, resolveBin, List.getD_cons_succ]
      exact ih n b (Nat.lt_of_succ_lt_succ hs)

/-! ## Claims -/

/-- C1: the claim says `Bin::write` never byte-reverses a floating-point
value, so that both byte-order configurations produce identical raw bytes on
write.  The code refutes this: `write` (src/readwritebin.h:190-196) reverses
the host bytes of every element type when `opposite_endian` holds — it has no
`is_floating_point` test.  Writing the 4 host bytes of the float `1.0f`
(`00 00 80 3F`) under the opposite-endian configuration stores `3F 80 00 00`
(first conjunct), while the native configuration stores `00 00 80 3F` (second
conjunct).  Only the read side (`get_value`, src/readwritebin.h:482) exempts
floats (third conjunct), so the written float does not even read back as
itself — the claim and the code's own read-side exemption identify the
missing test in `write` as the slip. -/
theorem C1_float_write_not_exempt :
    (Bin.write [0, 0, 128, 63] ⟨false, 0, [], true⟩).2.data = [63, 128, 0, 0] ∧
    (Bin.write [0, 0, 128, 63] ⟨false, 0, [], false⟩).2.data = [0, 0, 128, 63] ∧
    decodeBytes true true [0, 0, 128, 63] = [0, 0, 128, 63] :=
  ⟨rfl, rfl, rfl⟩

/-- C2 counterexample: the claim says that after `close()` *every* operation
on the store, `flush`, `wpos`, `rpos` and the relative moves included, fails
with a closed-resource error.  On a concrete closed store, `flush`
(src/readwritebin.h:567), `wpos` (:151), `rpos` (:157) and `rmove_by` (:175)
all return normally — none of them contains a closed check — so the claim as
stated is false. -/
theorem C2_counterexample :
    (Bin.flush ⟨true, 0, [7], false⟩).1 = Except.ok () ∧
    (Bin.wpos ⟨true, 0, [7], false⟩).1 = Except.ok (-1) ∧
    (Bin.rpos ⟨true, 0, [7], false⟩).1 = Except.ok (-1) ∧
    (Bin.rmove_by 1 1 ⟨true, 0, [7], false⟩).1 = Except.ok () ∧
    (Bin.wmove_by 1 1 ⟨true, 0, [7], false⟩).1 = Except.ok () :=
  ⟨rfl, rfl, rfl, rfl, rfl⟩

/-- C2 amended: once `closed = true`, the operations that check the flag —
`size`, `rjump_to`, `wjump_to`, `write`, `get_value` and their
offset-taking forms — fail with the closed-resource error, while `flush`,
`wpos`, `rpos`, `wmove_by` and `rmove_by` perform no closed check and return
normally (the positions reporting the stream failure value `-1`); and the
closed state is terminal: every operation, `close` included, leaves the
state (in particular `closed = true`) unchanged. -/
theorem C2_closed_terminal (s : Bin) (p : Int) (v : List Nat) (sz : Nat)
    (f : Bool) (n : Int) (hc : s.closed = true) :
    (Bin.size s).1 = Except.error Err.closedResource ∧
    (Bin.rjump_to p s).1 = Except.error Err.closedResource ∧
    (Bin.wjump_to p s).1 = Except.error Err.closedResource ∧
    (Bin.write v s).1 = Except.error Err.closedResource ∧
    (Bin.get_value sz f s).1 = Except.error Err.closedResource ∧
    (Bin.write_at v p s).1 = Except.error Err.closedResource ∧
    (Bin.get_value_at sz f p s).1 = Except.error Err.closedResource ∧
    (Bin.flush s).1 = Except.ok () ∧
    (Bin.wpos s).1 = Except.ok (-1) ∧
    (Bin.rpos s).1 = Except.ok (-1) ∧
    (Bin.wmove_by sz n s).1 = Except.ok () ∧
    (Bin.rmove_by sz n s).1 = Except.ok () ∧
    (Bin.size s).2 = s ∧
    (Bin.rjump_to p s).2 = s ∧
    (Bin.wjump_to p s).2 = s ∧
    (Bin.write v s).2 = s ∧
    (Bin.get_value sz f s).2 = s ∧
    (Bin.write_at v p s).2 = s ∧
    (Bin.get_value_at sz f p s).2 = s ∧
    (Bin.flush s).2 = s ∧
    (Bin.wpos s).2 = s ∧
    (Bin.rpos s).2 = s ∧
    (Bin.wmove_by sz n s).2 = s ∧
    (Bin.rmove_by sz n s).2 = s ∧
    (Bin.close s).2 = s := by
  obtain ⟨c, pos0, data0, opp⟩ := s
  simp only [Bin.closed] at hc
  subst hc
  simp [Bin.size, Bin.rjump_to, Bin.wjump_to, Bin.write, Bin.get_value,
    Bin.write_at, Bin.get_value_at, Bin.flush, Bin.wpos, Bin.rpos,
    Bin.wmove_by, Bin.rmove_by, Bin.close]

/-- C2 witness: the amended behaviour evaluated on a concrete closed store. -/
theorem C2_closed_terminal_witness :
    (Bin.size ⟨true, 2, [5], true⟩).1 = Except.error Err.closedResource ∧
    (Bin.rjump_to 1 ⟨true, 2, [5], true⟩).1 = Except.error Err.closedResource ∧
    (Bin.wjump_to 1 ⟨true, 2, [5], true⟩).1 = Except.error Err.closedResource ∧
    (Bin.write [3] ⟨true, 2, [5], true⟩).1 = Except.error Err.closedResource ∧
    (Bin.get_value 1 false ⟨true, 2, [5], true⟩).1 = Except.error Err.closedResource ∧
    (Bin.write_at [3] 1 ⟨true, 2, [5], true⟩).1 = Except.error Err.closedResource ∧
    (Bin.get_value_at 1 false 1 ⟨true, 2, [5], true⟩).1 = Except.error Err.closedResource ∧
    (Bin.flush ⟨true, 2, [5], true⟩).1 = Except.ok () ∧
    (Bin.wpos ⟨true, 2, [5], true⟩).1 = Except.ok (-1) ∧
    (Bin.rpos ⟨true, 2, [5], true⟩).1 = Except.ok (-1) ∧
    (Bin.wmove_by 1 1 ⟨true, 2, [5], true⟩).1 = Except.ok () ∧
    (Bin.rmove_by 1 1 ⟨true, 2, [5], true⟩).1 = Except.ok () ∧
    (Bin.size ⟨true, 2, [5], true⟩).2 = ⟨true, 2, [5], true⟩ ∧
    (Bin.rjump_to 1 ⟨true, 2, [5], true⟩).2 = ⟨true, 2, [5], true⟩ ∧
    (Bin.wjump_to 1 ⟨true, 2, [5], true⟩).2 = ⟨true, 2, [5], true⟩ ∧
    (Bin.write [3] ⟨true, 2, [5], true⟩).2 = ⟨true, 2, [5], true⟩ ∧
    (Bin.get_value 1 false ⟨true, 2, [5], true⟩).2 = ⟨true, 2, [5], true⟩ ∧
    (Bin.write_at [3] 1 ⟨true, 2, [5], true⟩).2 = ⟨true, 2, [5], true⟩ ∧
    (Bin.get_value_at 1 false 1 ⟨true, 2, [5], true⟩).2 = ⟨true, 2, [5], true⟩ ∧
    (Bin.flush ⟨true, 2, [5], true⟩).2 = ⟨true, 2, [5], true⟩ ∧
    (Bin.wpos ⟨true, 2, [5], true⟩).2 = ⟨true, 2, [5], true⟩ ∧
    (Bin.rpos ⟨true, 2, [5], true⟩).2 = ⟨true, 2, [5], true⟩ ∧
    (Bin.wmove_by 1 1 ⟨true, 2, [5], true⟩).2 = ⟨true, 2, [5], true⟩ ∧
    (Bin.rmove_by 1 1 ⟨true, 2, [5], true⟩).2 = ⟨true, 2, [5], true⟩ ∧
    (Bin.close ⟨true, 2, [5], true⟩).2 = ⟨true, 2, [5], true⟩ :=
  C2_closed_terminal ⟨true, 2, [5], true⟩ 1 [3] 1 false 1 rfl

/-- C3: for every integral element type (byte width `sz`, decoded with
`isFloat = false`), every value `v` of that width, and every offset `p` on an
open store, `put` at `p` followed by `get` at `p` returns `v`, under both
byte-order configurations (the store's `opposite_endian` flag is arbitrary). -/
theorem C3_roundtrip (s : Bin) (v : List Nat) (sz : Nat) (p : Nat)
    (hopen : s.closed = false) (hlen : v.length = sz) :
    (Bin.get_value_at sz false (p : Int) ((Bin.write_at v (p : Int) s).2)).1
      = Except.ok v := by
  have henc : (encodeBytes s.opposite_endian v).length = sz := by
    rw [encodeBytes_length, hlen]
  have hW : (Bin.write_at v (p : Int) s).2 =
      { s with data := storeBytes s.data p (encodeBytes s.opposite_endian v),
               pos := p + sz } := by
    simp [Bin.write_at, Bin.wjump_to, hopen, natCast_not_lt_zero, Bin.write, henc]
  rw [hW]
  set D := storeBytes s.data p (encodeBytes s.opposite_endian v) with hD
  have hge : p + sz ≤ D.length := by
    rw [hD, storeBytes_length, henc]
    omega
  have h1 : ¬ ((p : Int) > (D.length : Int)) := by omega
  have h2 : ¬ (0 ≤ (D.length : Int) - (p : Int) ∧
      (D.length : Int) - (p : Int) < (sz : Int)) := by omega
  have hread : (D.drop p).take sz = encodeBytes s.opposite_endian v := by
    rw [hD, ← henc, storeBytes_read]
  simp [Bin.get_value_at, Bin.rjump_to, hopen, h1, natCast_not_lt_zero,
    Bin.get_value, h2, hread, decodeBytes_encodeBytes]
  have h3 : ¬ (p ≤ D.length ∧ (D.length : Int) - (p : Int) < (sz : Int)) := by
    omega
  simp [h3]

/-- C3 witness: a concrete round trip with the opposite-endian configuration,
writing the two-byte value `[1, 2]` at offset 0 of a one-byte file. -/
theorem C3_roundtrip_witness :
    (Bin.get_value_at 2 false ((0 : Nat) : Int)
      ((Bin.write_at [1, 2] ((0 : Nat) : Int) ⟨false, 0, [9], true⟩).2)).1
      = Except.ok [1, 2] :=
  C3_roundtrip ⟨false, 0, [9], true⟩ [1, 2] 2 0 rfl rfl

/-- C4 counterexample: the claim says both `++iterator` and `--iterator`
re-validate that the weak handle resolves to a live, open store and fail when
it does not.  `BinPtr::operator--` (src/readwritebin.h:744-749) performs no
`check` call at all — its embedding does not even consult the heap — so on a
heap whose only store has been destroyed, an iterator observing it still
decrements successfully (here with stride 4 from offset 4). -/
theorem C4_counterexample :
    resolveBin ([none] : Heap) 0 = none ∧
    BinPtr.dec 4 ⟨0, 4⟩ = Except.ok ⟨0, 0⟩ :=
  ⟨rfl, rfl⟩

/-- C4 amended: prefix `++` re-validates the weak handle on every step —
failing with the unbound-reference error when the store is destroyed and with
the closed-resource error when it is closed, and advancing by `sizeof(T)`
otherwise — while prefix `--` performs no handle validation at all: it fails
with the out-of-range error exactly when `curr < sizeof(T)` (the decrement
would go below offset 0) and otherwise retreats by `sizeof(T)`, regardless of
the state of the store. -/
theorem C4_step_validation (h : Heap) (sz : Nat) (p : BinPtr) :
    (BinPtr.inc h sz p = match resolveBin h p.wptr with
      | none => Except.error Err.unboundReference
      | some b =>
        if b.closed then Except.error Err.closedResource
        else Except.ok ⟨p.wptr, p.curr + (sz : Int)⟩) ∧
    (BinPtr.dec sz p = if p.curr < (sz : Int) then Except.error Err.outOfBounds
      else Except.ok ⟨p.wptr, p.curr - (sz : Int)⟩) := by
  constructor
  · unfold BinPtr.inc BinPtr.check
    cases hr : resolveBin h p.wptr with
    | none => rfl
    | some b =>
      by_cases hb : b.closed
      · simp [hb]
      · have h0 : ¬ ((0 : Int) > (b.data.length : Int)) := by omega
        simp [hb, h0]
  · rfl

/-- C5 counterexample: the claim says the read cursor and the write cursor
are independent.  The underlying `std::fstream` keeps a single joint file
position (the source itself notes at `rpos`, src/readwritebin.h:153-157, that
it "seems to be identical to the write version"): on a concrete open store a
write-kind seek to offset 3 moves the position reported by `rpos` from 0 to
3, and a read-kind seek to offset 2 moves the position reported by `wpos`. -/
theorem C5_counterexample :
    (Bin.rpos ⟨false, 0, [0, 0, 0, 0], false⟩).1 = Except.ok 0 ∧
    (Bin.rpos ((Bin.wjump_to 3 ⟨false, 0, [0, 0, 0, 0], false⟩).2)).1
      = Except.ok 3 ∧
    (Bin.wpos ((Bin.rjump_to 2 ⟨false, 0, [0, 0, 0, 0], false⟩).2)).1
      = Except.ok 2 :=
  ⟨rfl, rfl, rfl⟩

/-- C5 amended: the store keeps one joint file position shared by reads and
writes: `rpos` and `wpos` always report the same value; a successful
write-kind seek makes both report its target, a successful read-kind seek
likewise; a write advances the position reported by `rpos`, and a successful
typed read advances the position reported by `wpos`. -/
theorem C5_shared_position (s : Bin) (pr pw : Nat) (v : List Nat) (sz : Nat)
    (f : Bool) (hopen : s.closed = false) (hpr : pr ≤ s.data.length)
    (hsz : s.pos + sz ≤ s.data.length) :
    (Bin.rpos s).1 = (Bin.wpos s).1 ∧
    (Bin.rpos ((Bin.wjump_to (pw : Int) s).2)).1 = Except.ok (pw : Int) ∧
    (Bin.wpos ((Bin.rjump_to (pr : Int) s).2)).1 = Except.ok (pr : Int) ∧
    (Bin.rpos ((Bin.write v s).2)).1
      = Except.ok ((s.pos : Int) + (v.length : Int)) ∧
    (Bin.wpos ((Bin.get_value sz f s).2)).1
      = Except.ok ((s.pos : Int) + (sz : Int)) := by
  have h1 : ¬ ((pr : Int) > (s.data.length : Int)) := by omega
  have h2 : ¬ (0 ≤ (s.data.length : Int) - (s.pos : Int) ∧
      (s.data.length : Int) - (s.pos : Int) < (sz : Int)) := by omega
  have h2' : ¬ (s.pos ≤ s.data.length ∧
      (s.data.length : Int) - (s.pos : Int) < (sz : Int)) := by omega
  refine ⟨rfl, ?_, ?_, ?_, ?_⟩
  · simp [Bin.wjump_to, hopen, natCast_not_lt_zero, Bin.rpos]
  · simp [Bin.rjump_to, hopen, h1, natCast_not_lt_zero, Bin.wpos]
  · simp [Bin.write, hopen, Bin.rpos, encodeBytes_length]
  · simp [Bin.get_value, hopen, h2, h2', Bin.wpos]

/-- C5 witness: the amended behaviour evaluated on a concrete open store of
four bytes (position 0), with a write seek to 3, a read seek to 2, a
one-byte write and a two-byte read. -/
theorem C5_shared_position_witness :
    (Bin.rpos ⟨false, 0, [1, 2, 3, 4], false⟩).1
      = (Bin.wpos ⟨false, 0, [1, 2, 3, 4], false⟩).1 ∧
    (Bin.rpos ((Bin.wjump_to ((3 : Nat) : Int) ⟨false, 0, [1, 2, 3, 4], false⟩).2)).1
      = Except.ok ((3 : Nat) : Int) ∧
    (Bin.wpos ((Bin.rjump_to ((2 : Nat) : Int) ⟨false, 0, [1, 2, 3, 4], false⟩).2)).1
      = Except.ok ((2 : Nat) : Int) ∧
    (Bin.rpos ((Bin.write [9] ⟨false, 0, [1, 2, 3, 4], false⟩).2)).1
      = Except.ok (((0 : Nat) : Int) + (([9] : List Nat).length : Int)) ∧
    (Bin.wpos ((Bin.get_value 2 false ⟨false, 0, [1, 2, 3, 4], false⟩).2)).1
      = Except.ok (((0 : Nat) : Int) + ((2 : Nat) : Int)) :=
  C5_shared_position ⟨false, 0, [1, 2, 3, 4], false⟩ 2 3 [9] 2 false rfl
    (by decide) (by decide)

/-- C6 counterexample: the claim says a failed single-value `get<T>(offset)`
leaves the store's observable state unchanged.  On an open four-byte store
with position 0, `get` of a four-byte value at offset 2 fails (only two bytes
remain), but the seek performed before the bounds check has already moved the
position to 2 — the post-state differs from the pre-state, so the failed
operation is not all-or-nothing. -/
theorem C6_counterexample :
    (Bin.get_value_at 4 false 2 ⟨false, 0, [1, 2, 3, 4], false⟩).1
      = Except.error Err.outOfBounds ∧
    (Bin.get_value_at 4 false 2 ⟨false, 0, [1, 2, 3, 4], false⟩).2
      = ⟨false, 2, [1, 2, 3, 4], false⟩ :=
  ⟨rfl, rfl⟩

/-- C6 amended: `put<T>(v, offset)` is all-or-nothing — it fails exactly when
the store is closed, and then the state is unchanged.  A failed
`get<T>(offset)` never changes the file contents or the open flag, but it is
not all-or-nothing on the cursor: when the failure is the closed check or the
seek bounds check (`offset > size`) the position is unchanged, while when the
seek succeeds and the typed read then fails (`offset ≤ size < offset +
sizeof(T)`) the position has already moved to `offset`. -/
theorem C6_single_value_effects (s : Bin) (v : List Nat) (sz : Nat) (f : Bool)
    (p : Nat) (e : Err) :
    ((Bin.write_at v (p : Int) s).1 = Except.error Err.closedResource
      ↔ s.closed = true) ∧
    (s.closed = true → (Bin.write_at v (p : Int) s).2 = s) ∧
    ((Bin.get_value_at sz f (p : Int) s).1 = Except.error e →
      (Bin.get_value_at sz f (p : Int) s).2.data = s.data ∧
      (Bin.get_value_at sz f (p : Int) s).2.closed = s.closed ∧
      (Bin.get_value_at sz f (p : Int) s).2.pos
        = if s.closed = true ∨ s.data.length < p then s.pos else p) := by
  refine ⟨?_, ?_, ?_⟩
  · by_cases hc : s.closed
    · simp [Bin.write_at, Bin.wjump_to, hc]
    · simp [Bin.write_at, Bin.wjump_to, hc, Bin.write, natCast_not_lt_zero]
  · intro hc
    simp [Bin.write_at, Bin.wjump_to, hc]
  · rw [get_value_at_eq]
    by_cases hc : s.closed
    · simp [hc]
    · by_cases hp : s.data.length < p
      · simp [hc, hp]
      · by_cases h2 : s.data.length < p + sz
        · simp [hc, hp, h2]
        · simp [hc, hp, h2]

/-- C6 witness: the amended behaviour at the concrete failing read of the
counterexample input (four-byte read at offset 2 of a four-byte file), where
`put` does not fail and the failed `get` leaves the position at 2. -/
theorem C6_single_value_effects_witness :
    ((Bin.write_at [9] ((2 : Nat) : Int) ⟨false, 0, [1, 2, 3, 4], false⟩).1
        = Except.error Err.closedResource
      ↔ (⟨false, 0, [1, 2, 3, 4], false⟩ : Bin).closed = true) ∧
    ((⟨false, 0, [1, 2, 3, 4], false⟩ : Bin).closed = true →
      (Bin.write_at [9] ((2 : Nat) : Int) ⟨false, 0, [1, 2, 3, 4], false⟩).2
        = ⟨false, 0, [1, 2, 3, 4], false⟩) ∧
    ((Bin.get_value_at 4 false ((2 : Nat) : Int)
          ⟨false, 0, [1, 2, 3, 4], false⟩).1 = Except.error Err.outOfBounds →
      (Bin.get_value_at 4 false ((2 : Nat) : Int)
          ⟨false, 0, [1, 2, 3, 4], false⟩).2.data = [1, 2, 3, 4] ∧
      (Bin.get_value_at 4 false ((2 : Nat) : Int)
          ⟨false, 0, [1, 2, 3, 4], false⟩).2.closed
        = (⟨false, 0, [1, 2, 3, 4], false⟩ : Bin).closed ∧
      (Bin.get_value_at 4 false ((2 : Nat) : Int)
          ⟨false, 0, [1, 2, 3, 4], false⟩).2.pos
        = if (⟨false, 0, [1, 2, 3, 4], false⟩ : Bin).closed = true ∨
              ([1, 2, 3, 4] : List Nat).length < 2 then
            (⟨false, 0, [1, 2, 3, 4], false⟩ : Bin).pos
          else 2) :=
  C6_single_value_effects ⟨false, 0, [1, 2, 3, 4], false⟩ [9] 4 false 2
    Err.outOfBounds

/-- C7: on an open store, `get<T>(offset)` (non-negative `offset`) fails with
the out-of-bounds error exactly when `offset + sizeof(T) > size()`; when
`offset + sizeof(T) ≤ size()` it returns the bytes at `[offset, offset +
sizeof(T))` decoded by the codec and leaves the read position advanced by
`sizeof(T)` past the sought offset. -/
theorem C7_get_bounds (s : Bin) (sz : Nat) (f : Bool) (p : Nat)
    (hopen : s.closed = false) :
    ((Bin.get_value_at sz f (p : Int) s).1 = Except.error Err.outOfBounds
      ↔ s.data.length < p + sz) ∧
    (p + sz ≤ s.data.length →
      (Bin.get_value_at sz f (p : Int) s).1
        = Except.ok (decodeBytes s.opposite_endian f ((s.data.drop p).take sz)) ∧
      (Bin.get_value_at sz f (p : Int) s).2.pos = p + sz) := by
  rw [get_value_at_eq]
  by_cases hp : s.data.length < p
  · have h2 : s.data.length < p + sz := by omega
    simp [hopen, hp, h2]
  · by_cases h2 : s.data.length < p + sz
    · simp [hopen, hp, h2]
    · simp [hopen, hp, h2]

/-- C7 witness: a concrete in-bounds read on an open opposite-endian store:
the two bytes at offset 1 of `[10, 20, 30]` come back reversed and the
position ends at 3; the out-of-bounds equivalence is evaluated at the same
input. -/
theorem C7_get_bounds_witness :
    (((Bin.get_value_at 2 false ((1 : Nat) : Int) ⟨false, 0, [10, 20, 30], true⟩).1
        = Except.error Err.outOfBounds)
      ↔ ([10, 20, 30] : List Nat).length < 1 + 2) ∧
    (1 + 2 ≤ ([10, 20, 30] : List Nat).length →
      (Bin.get_value_at 2 false ((1 : Nat) : Int) ⟨false, 0, [10, 20, 30], true⟩).1
        = Except.ok (decodeBytes true false ((([10, 20, 30] : List Nat).drop 1).take 2)) ∧
      (Bin.get_value_at 2 false ((1 : Nat) : Int) ⟨false, 0, [10, 20, 30], true⟩).2.pos
        = 1 + 2) :=
  C7_get_bounds ⟨false, 0, [10, 20, 30], true⟩ 2 false 1 rfl

/-- C8 counterexample: the claim says that comparing two iterators where
either one fails to resolve — the store destroyed *or* `open=false` — raises
an error.  `BinPtr::operator==` (src/readwritebin.h:797-804) only locks the
weak pointers; it never consults the `closed` flag.  On a heap whose single
store is still alive but closed, comparing two iterators to it returns
`true` instead of raising. -/
theorem C8_counterexample :
    BinPtr.eq ([some ⟨true, 0, [], false⟩] : Heap) ⟨0, 8⟩ ⟨0, 8⟩
      = Except.ok true :=
  rfl

/-- C8 amended: two iterators compare equal iff both weak handles still
resolve (the store objects are alive — the open/closed flag is not
consulted), they observe the same store instance, and their offsets are
equal; the comparison raises the invalid-comparison error exactly when
either handle fails to resolve (store destroyed).  A closed-but-alive store
does not make the comparison raise. -/
theorem C8_eq_semantics (h : Heap) (a b : BinPtr) :
    (BinPtr.eq h a b = Except.ok true ↔
      (resolveBin h a.wptr).isSome ∧ (resolveBin h b.wptr).isSome ∧
        a.curr = b.curr ∧ a.wptr = b.wptr) ∧
    (BinPtr.eq h a b = Except.error Err.invalidComparison ↔
      (resolveBin h a.wptr).isNone ∨ (resolveBin h b.wptr).isNone) := by
  cases hra : resolveBin h a.wptr <;> cases hrb : resolveBin h b.wptr <;>
    simp [BinPtr.eq, hra, hrb]

/-- C9: dereferencing an iterator whose store is alive and open returns the
proxy bound to the iterator's offset, and — even though no read or write is
performed through the proxy — has already seeked the store to the iterator's
byte offset (`p->wjump_to(curr)` inside `operator*`,
src/readwritebin.h:720-725). -/
theorem C9_deref_seeks (h : Heap) (p : BinPtr) (b : Bin)
    (hres : resolveBin h p.wptr = some b) (hopen : b.closed = false)
    (hcurr : 0 ≤ p.curr) :
    (BinPtr.deref h p).1 = Except.ok ⟨p.wptr, p.curr⟩ ∧
    resolveBin (BinPtr.deref h p).2 p.wptr
      = some { b with pos := p.curr.toNat } := by
  have hlt : p.wptr < h.length := resolveBin_lt h p.wptr b hres
  have h0 : ¬ ((0 : Int) > (b.data.length : Int)) := by omega
  have hc0 : ¬ (p.curr < 0) := not_lt.mpr hcurr
  unfold BinPtr.deref BinPtr.check
  rw [hres]
  simp only [hopen, Bool.false_eq_true, if_false, if_neg h0]
  refine ⟨trivial, ?_⟩
  simp only [Bin.wjump_to, hopen, Bool.false_eq_true, if_false, if_neg hc0]
  exact resolveBin_setStore h p.wptr _ hlt

/-- C9 witness: dereferencing the iterator at offset 2 over a live, open
three-byte store seeks the store's position to 2. -/
theorem C9_deref_seeks_witness :
    (BinPtr.deref ([some ⟨false, 0, [1, 2, 3], false⟩] : Heap) ⟨0, 2⟩).1
      = Except.ok ⟨0, 2⟩ ∧
    resolveBin
        (BinPtr.deref ([some ⟨false, 0, [1, 2, 3], false⟩] : Heap) ⟨0, 2⟩).2 0
      = some ⟨false, 2, [1, 2, 3], false⟩ :=
  C9_deref_seeks ([some ⟨false, 0, [1, 2, 3], false⟩] : Heap) ⟨0, 2⟩
    ⟨false, 0, [1, 2, 3], false⟩ rfl rfl (by decide)

/-- C10: on a live, open store, the offset-arithmetic operation
`iterator - n` (src/readwritebin.h:786-789) performs no lower-bound check:
for every positive `n` it returns a new iterator over the same store at
offset `curr - sizeof(T) * n` without error, even when that offset is
negative — unlike `--iterator`, which fails with the out-of-range error
whenever `curr < sizeof(T)`. -/
theorem C10_sub_no_lower_bound (h : Heap) (p : BinPtr) (b : Bin) (sz : Nat)
    (n : Int) (hres : resolveBin h p.wptr = some b) (hopen : b.closed = false)
    (hn : 0 < n) :
    BinPtr.sub h sz p n = Except.ok ⟨p.wptr, p.curr - (sz : Int) * n⟩ ∧
    (p.curr < (sz : Int) → BinPtr.dec sz p = Except.error Err.outOfBounds) := by
  have h0 : ¬ ((0 : Int) > (b.data.length : Int)) := by omega
  unfold BinPtr.sub BinPtr.check BinPtr.dec
  rw [hres]
  simp only [hopen, Bool.false_eq_true, if_false, if_neg h0]
  exact ⟨trivial, fun hlt => by rw [if_pos hlt]⟩

/-- C10 witness: subtracting one four-byte step from an iterator at offset 0
of a live, open store yields the iterator at offset `-4` without error,
while decrementing the same iterator raises the out-of-range error. -/
theorem C10_sub_no_lower_bound_witness :
    BinPtr.sub ([some ⟨false, 0, [1, 2, 3, 4], false⟩] : Heap) 4 ⟨0, 0⟩ 1
      = Except.ok ⟨0, (0 : Int) - ((4 : Nat) : Int) * 1⟩ ∧
    ((0 : Int) < ((4 : Nat) : Int) →
      BinPtr.dec 4 ⟨0, 0⟩ = Except.error Err.outOfBounds) :=
  C10_sub_no_lower_bound ([some ⟨false, 0, [1, 2, 3, 4], false⟩] : Heap)
    ⟨0, 0⟩ ⟨false, 0, [1, 2, 3, 4], false⟩ 4 1 rfl rfl (by decide)

end ReadWriteBin
